import Mathlib

/-!
Verification development for the tiny-worker URL shortener.

The TypeScript sources are shallowly embedded in Lean:
* pure helper functions (`isPrivateIP`, the UUID regex test, `path.posix.normalize`,
  `decodeURIComponent`, `getClientIP`, the rate-limiter arithmetic) are translated
  directly into executable Lean functions;
* the external JavaScript libraries used by `sanitizeAndValidateUrl`
  (`@braintree/sanitize-url`, the WHATWG `URL` constructor and its setters,
  `punycode.toASCII`, `tldts`' `parse`, `dns.lookup`) are modelled as an explicit
  environment of function parameters (`JsEnv`), since they are external
  collaborators of the repository, not part of its code; concrete environments
  used by witnesses and counterexamples record the documented behaviour of those
  libraries on the specific strings involved;
* the Cloudflare KV store is modelled by explicit state passing; store calls that
  may throw are modelled with `Except`;
* JavaScript truthiness of `string | null` values (`null` and `""` are falsy) is
  modelled by `jsTruthy`, and `parseInt` NaN by `Option Int`.
-/

namespace TinyWorker

/-! ## String primitives

Kernel-reducible (structurally recursive) replacements for the string library
operations the sources use, so that concrete runs of the embedded code can be
checked by `decide`/`rfl`. They mirror the JavaScript semantics of
`String.prototype.split` (with a non-empty string separator),
`trim`, `startsWith`, `endsWith`, `toLowerCase` (ASCII) and number
stringification. -/

def stripPrefixL : List Char → List Char → Option (List Char)
  | [], l => some l
  | _ :: _, [] => none
  | s :: ss, x :: xs => if s = x then stripPrefixL ss xs else none

/-- Split on a non-empty separator, non-overlapping, left to right; the fuel is
an upper bound on the number of steps (the input length suffices). -/
def splitOnAuxL (sep : List Char) : Nat → List Char → List Char → List (List Char)
  | _, acc, [] => [acc.reverse]
  | 0, acc, rest => [acc.reverse ++ rest]
  | fuel + 1, acc, x :: xs =>
    match stripPrefixL sep (x :: xs) with
    | some rest => acc.reverse :: splitOnAuxL sep fuel [] rest
    | none => splitOnAuxL sep fuel (x :: acc) xs

/-- JS `s.split(sep)` for a non-empty string separator (also the behaviour of
Lean's `String.splitOn`). -/
def splitOnStr (s sep : String) : List String :=
  if sep = "" then [s]
  else (splitOnAuxL sep.data s.data.length [] s.data).map String.mk

def jsTrim (s : String) : String :=
  String.mk (((s.data.dropWhile Char.isWhitespace).reverse.dropWhile Char.isWhitespace).reverse)

def startsWithStr (s p : String) : Bool :=
  (stripPrefixL p.data s.data).isSome

def endsWithStr (s p : String) : Bool :=
  (stripPrefixL p.data.reverse s.data.reverse).isSome

def charToLower (c : Char) : Char :=
  if 'A' ≤ c ∧ c ≤ 'Z' then Char.ofNat (c.toNat + 32) else c

def toLowerStr (s : String) : String :=
  String.mk (s.data.map charToLower)

def intercalateStr (sep : String) : List String → String
  | [] => ""
  | x :: xs => xs.foldl (fun a y => a ++ sep ++ y) x

def natToStrAux : Nat → Nat → List Char → List Char
  | 0, _, acc => acc
  | fuel + 1, n, acc =>
    if n = 0 then acc else natToStrAux fuel (n / 10) (Char.ofNat (48 + n % 10) :: acc)

/-- Decimal rendering of a natural number (JS template-literal interpolation). -/
def natToStr (n : Nat) : String :=
  if n = 0 then "0" else String.mk (natToStrAux n n [])

/-! ## JavaScript primitives -/

/-- Truthiness of a JS `string | null` value: `null` and `""` are falsy. -/
def jsTruthy : Option String → Bool
  | some s => s ≠ ""
  | none => false

/-- `parseInt(s, 10)`: skip leading whitespace, optional sign, then a run of
decimal digits; `none` models the JS result `NaN` (no digits found). -/
def parseInt10 (s : String) : Option Int :=
  let cs := s.data.dropWhile Char.isWhitespace
  let (neg, cs) : Bool × List Char :=
    match cs with
    | '-' :: r => (true, r)
    | '+' :: r => (false, r)
    | r => (false, r)
  let digs := cs.takeWhile Char.isDigit
  if digs.isEmpty then none
  else
    let n : Nat := digs.foldl (fun a c => a * 10 + (c.toNat - 48)) 0
    some (if neg then -(n : Int) else (n : Int))

/-- JS `x + 1` where `x` may be NaN. -/
def jsAdd1 : Option Int → Option Int
  | some n => some (n + 1)
  | none => none

/-- JS `x >= m` where `x` may be NaN (any comparison with NaN is false). -/
def jsGeNat : Option Int → Nat → Bool
  | some n, m => (m : Int) ≤ n
  | none, _ => false

/-- JS `String(x)` / `x.toString()` for a number that may be NaN. -/
def jsNumToString : Option Int → String
  | some n => toString n
  | none => "NaN"

/-- JS `m - x` where `x` may be NaN. -/
def jsSubFrom (m : Nat) : Option Int → Option Int
  | some n => some ((m : Int) - n)
  | none => none

/-- JS `s.replace(c, '')` for a single-character pattern: removes the first
occurrence only. -/
def removeFirstOccAux (c : Char) : List Char → List Char
  | [] => []
  | x :: xs => if x = c then xs else x :: removeFirstOccAux c xs

def removeFirstOcc (c : Char) (s : String) : String :=
  String.mk (removeFirstOccAux c s.data)

/-- JS `s.includes(pat)` specialised to the two-dot substring test of step 9. -/
def hasDotDotAux : List Char → Bool
  | [] => false
  | '.' :: '.' :: _ => true
  | _ :: rest => hasDotDotAux rest

def hasDotDot (s : String) : Bool :=
  hasDotDotAux s.data

/-! ## IP address parsing (Node `net.isIPv4` / `net.isIPv6`)

Node validates with anchored regexes: IPv4 is four dot-separated decimal
octets `0..255` without leading zeros; IPv6 is the usual grammar with at most
one `::` compression, 1-4 hex digit groups, an optional embedded dotted-quad
tail, and an optional `%zone` suffix. -/

def digitsVal (cs : List Char) : Nat :=
  cs.foldl (fun a c => a * 10 + (c.toNat - 48)) 0

/-- One IPv4 octet per Node's `v4Seg` regex
`25[0-5]|2[0-4][0-9]|1[0-9][0-9]|[1-9][0-9]|[0-9]`: decimal, value ≤ 255,
no leading zero unless the octet is the single digit `0`. -/
def isV4Seg (s : String) : Bool :=
  match s.data with
  | [] => false
  | c :: rest =>
    (c :: rest).all Char.isDigit && (c :: rest).length ≤ 3 &&
      (rest.isEmpty || c ≠ '0') && digitsVal (c :: rest) ≤ 255

def parseV4 (s : String) : Option (Nat × Nat × Nat × Nat) :=
  match splitOnStr s "." with
  | [a, b, c, d] =>
    if isV4Seg a && isV4Seg b && isV4Seg c && isV4Seg d then
      some (digitsVal a.data, digitsVal b.data, digitsVal c.data, digitsVal d.data)
    else none
  | _ => none

def isIPv4 (s : String) : Bool := (parseV4 s).isSome

def hexDigitVal (c : Char) : Option Nat :=
  if '0' ≤ c ∧ c ≤ '9' then some (c.toNat - 48)
  else if 'a' ≤ c ∧ c ≤ 'f' then some (c.toNat - 87)
  else if 'A' ≤ c ∧ c ≤ 'F' then some (c.toNat - 55)
  else none

/-- One IPv6 group: 1-4 hex digits. -/
def isHexSeg (s : String) : Bool :=
  1 ≤ s.length && s.length ≤ 4 && s.data.all (fun c => (hexDigitVal c).isSome)

def hexSegVal (s : String) : Nat :=
  s.data.foldl (fun a c => a * 16 + (hexDigitVal c).getD 0) 0

def isZoneChar (c : Char) : Bool :=
  c.isAlpha || c.isDigit || c = '-' || c = '.' || c = ':'

/-- Parse a colon-separated run of IPv6 groups where only the last element may
be an embedded dotted-quad (which contributes two 16-bit groups). -/
def parseGroupsTail : List String → Option (List Nat)
  | [] => some []
  | [s] =>
    if isHexSeg s then some [hexSegVal s]
    else
      match parseV4 s with
      | some (a, b, c, d) => some [a * 256 + b, c * 256 + d]
      | none => none
  | s :: rest =>
    if isHexSeg s then (parseGroupsTail rest).map (hexSegVal s :: ·) else none

/-- Parse an IPv6 textual form to its eight 16-bit groups (`none` if the string
is not an IPv6 address under Node's grammar). An optional `%zone` suffix is
accepted and ignored, as in Node's regex. -/
def parseIPv6 (s : String) : Option (List Nat) :=
  let stripped : Option String :=
    match splitOnStr s "%" with
    | [a] => some a
    | [a, z] => if 1 ≤ z.length && z.data.all isZoneChar then some a else none
    | _ => none
  match stripped with
  | none => none
  | some addr =>
    match splitOnStr addr "::" with
    | [whole] =>
      match parseGroupsTail (splitOnStr whole ":") with
      | some gs => if gs.length = 8 then some gs else none
      | none => none
    | [l, r] =>
      let lParts := if l = "" then [] else splitOnStr l ":"
      let rParts := if r = "" then [] else splitOnStr r ":"
      if lParts.all isHexSeg then
        match parseGroupsTail rParts with
        | some rgs =>
          let lgs := lParts.map hexSegVal
          if lgs.length + rgs.length ≤ 7 then
            some (lgs ++ List.replicate (8 - lgs.length - rgs.length) 0 ++ rgs)
          else none
        | none => none
      else none
    | _ => none

def isIPv6 (s : String) : Bool := (parseIPv6 s).isSome

/-- The `/^172\.(1[6-9]|2[0-9]|3[0-1])\./` test from `isPrivateIP`. -/
def is172Private (ip : String) : Bool :=
  (List.range 16).any (fun i => startsWithStr ip ("172." ++ natToStr (16 + i) ++ "."))

/-- Direct translation of `isPrivateIP` from `lib/sanitizeAndValidateUrl.ts`:
textual prefix tests on the resolved address. -/
def isPrivateIP (ip : String) : Bool :=
  if isIPv4 ip then
    startsWithStr ip "10." || startsWithStr ip "127." || startsWithStr ip "192.168." ||
      is172Private ip || startsWithStr ip "169.254."
  else if isIPv6 ip then
    ip = "::1" || startsWithStr ip "fc" || startsWithStr ip "fd" || startsWithStr ip "fe80"
  else false

/-! ## Semantic address ranges (used only to state the spec's claims) -/

/-- The address, read as a dotted quad, lies in 10/8, 127/8, 192.168/16,
172.16/12 or 169.254/16. -/
def ipv4InPrivateRange (s : String) : Bool :=
  match parseV4 s with
  | some (a, b, _, _) =>
    a = 10 || a = 127 || (a = 192 && b = 168) || (a = 172 && 16 ≤ b && b ≤ 31) ||
      (a = 169 && b = 254)
  | none => false

/-- The address, read as an IPv6 textual form, is the loopback address or lies
in fc00::/7 (top seven bits 1111110) or fe80::/10 (top ten bits 1111111010). -/
def ipv6InBlockedRange (s : String) : Bool :=
  match parseIPv6 s with
  | some gs =>
    gs = [0, 0, 0, 0, 0, 0, 0, 1] || gs.headD 0 / 512 = 126 || gs.headD 0 / 64 = 1018
  | none => false

def addrInPrivateRange (s : String) : Bool :=
  ipv4InPrivateRange s || ipv6InBlockedRange s

/-! ## `decodeURIComponent`

ECMAScript's Decode: each `%` must be followed by exactly two hex digits; the
collected bytes must form valid (shortest-form, surrogate-free) UTF-8,
otherwise a `URIError` is thrown (modelled as `Except.error`). -/

/-- UTF-8 encode one character (code points in a `String` are always scalar
values, so this is total). -/
def utf8EncodeChar (c : Char) : List Nat :=
  let n := c.toNat
  if n < 0x80 then [n]
  else if n < 0x800 then [0xC0 + n / 64, 0x80 + n % 64]
  else if n < 0x10000 then [0xE0 + n / 4096, 0x80 + n / 64 % 64, 0x80 + n % 64]
  else [0xF0 + n / 262144, 0x80 + n / 4096 % 64, 0x80 + n / 64 % 64, 0x80 + n % 64]

def isContByte (b : Nat) : Bool := 0x80 ≤ b && b ≤ 0xBF

/-- Strict UTF-8 decoding, one byte at a time: `need` is the number of
continuation bytes still expected, `cp` the partial code point, `lo` the least
code point the current sequence may encode (shortest-form check). Rejects
overlong forms, surrogates and values above U+10FFFF, as ECMAScript's Decode
does. -/
def utf8Aux : List Nat → Nat → Nat → Nat → Option (List Char)
  | [], 0, _, _ => some []
  | [], _ + 1, _, _ => none
  | b :: bs, 0, _, _ =>
    if b < 0x80 then (utf8Aux bs 0 0 0).map (Char.ofNat b :: ·)
    else if 0xC2 ≤ b ∧ b ≤ 0xDF then utf8Aux bs 1 (b - 0xC0) 0x80
    else if 0xE0 ≤ b ∧ b ≤ 0xEF then utf8Aux bs 2 (b - 0xE0) 0x800
    else if 0xF0 ≤ b ∧ b ≤ 0xF4 then utf8Aux bs 3 (b - 0xF0) 0x10000
    else none
  | b :: bs, n + 1, cp, lo =>
    if isContByte b then
      let cp' := cp * 64 + (b - 0x80)
      match n with
      | 0 =>
        if lo ≤ cp' ∧ ¬ (0xD800 ≤ cp' ∧ cp' ≤ 0xDFFF) ∧ cp' ≤ 0x10FFFF then
          (utf8Aux bs 0 0 0).map (Char.ofNat cp' :: ·)
        else none
      | m + 1 => utf8Aux bs (m + 1) cp' lo
    else none

def utf8Decode (bs : List Nat) : Option (List Char) :=
  utf8Aux bs 0 0 0

/-- Replace each `%XY` escape by the byte it denotes and UTF-8 encode every
other character; `none` when a `%` is not followed by two hex digits. -/
def pctBytes : List Char → Option (List Nat)
  | [] => some []
  | c :: rest =>
    if c = '%' then
      match rest with
      | c1 :: c2 :: rest' =>
        match hexDigitVal c1, hexDigitVal c2, pctBytes rest' with
        | some h1, some h2, some bs => some ((h1 * 16 + h2) :: bs)
        | _, _, _ => none
      | _ => none
    else (pctBytes rest).map (utf8EncodeChar c ++ ·)

/-- `decodeURIComponent`, with `URIError` modelled as `Except.error`. -/
def decodeURIComponentE (s : String) : Except Unit String :=
  match pctBytes s.data with
  | none => .error ()
  | some bs =>
    match utf8Decode bs with
    | none => .error ()
    | some cs => .ok (String.mk cs)

/-! ## `path.posix.normalize`

Node's normalization: split on `/`, drop empty and `.` segments, resolve `..`
against a stack (`..` above the root is kept only for relative paths), then
restore the leading slash and any trailing slash. -/

def normSegs (allowAbove : Bool) : List String → List String → List String
  | acc, [] => acc.reverse
  | acc, s :: rest =>
    if s = "" || s = "." then normSegs allowAbove acc rest
    else if s = ".." then
      match acc with
      | t :: acc' =>
        if t = ".." then normSegs allowAbove (".." :: t :: acc') rest
        else normSegs allowAbove acc' rest
      | [] =>
        if allowAbove then normSegs allowAbove [".."] rest
        else normSegs allowAbove [] rest
    else normSegs allowAbove (s :: acc) rest

def posixNormalize (p : String) : String :=
  if p = "" then "."
  else
    let isAbs := startsWithStr p "/"
    let trailing := endsWithStr p "/"
    let segs := normSegs (!isAbs) [] (splitOnStr p "/")
    let core := intercalateStr "/" segs
    if core = "" then
      if isAbs then "/" else if trailing then "./" else "."
    else
      let core := if trailing then core ++ "/" else core
      if isAbs then "/" ++ core else core

/-! ## The WHATWG `URL` object and the external library environment -/

/-- The components of a parsed WHATWG `URL` for a special (host-bearing)
scheme, as the pipeline reads and writes them. `scheme` is the protocol
without the trailing colon (`url.protocol` is `scheme ++ ":"`); `query` and
`fragment` are `none` when the URL has no query / fragment. -/
structure URLRec where
  scheme : String
  username : String := ""
  password : String := ""
  hostname : String
  port : String := ""
  pathname : String
  query : Option String := none
  fragment : Option String := none
deriving DecidableEq

/-- The WHATWG serializer (`url.toString()`) for host-bearing URLs. -/
def serializeURL (u : URLRec) : String :=
  u.scheme ++ "://" ++
    (if u.username = "" && u.password = "" then ""
     else u.username ++ (if u.password = "" then "" else ":" ++ u.password) ++ "@") ++
    u.hostname ++ (if u.port = "" then "" else ":" ++ u.port) ++ u.pathname ++
    (match u.query with | none => "" | some q => "?" ++ q) ++
    (match u.fragment with | none => "" | some f => "#" ++ f)

/-- The external JavaScript collaborators of `sanitizeAndValidateUrl`,
modelled as explicit function parameters:
`sanitize` is `@braintree/sanitize-url`'s `sanitizeUrl`; `parse` is the
throwing `new URL(·)` constructor; `toASCII` is `punycode.toASCII` (which can
throw); `domainOf` is `tldts`' `parse(·).domain` (`null` modelled as `none`);
`dnsLookup` is `dns.lookup(host, { all: true })` returning the resolved
address strings (`Except.error` models a rejection); `setPath` is the
percent-encoding applied by the WHATWG `url.pathname` setter; `parseQ` and
`serializeQ` are the `URLSearchParams` view of a raw query string and its
re-serialization. -/
structure JsEnv where
  sanitize : String → String
  parse : String → Except Unit URLRec
  toASCII : String → Except Unit String
  domainOf : String → Option String
  dnsLookup : String → Except Unit (List String)
  setPath : String → String
  parseQ : String → List (String × String)
  serializeQ : List (String × String) → String

/-- The `SanitizeUrlOptions` parameter object with its default values. -/
structure SanitizeUrlOptions where
  allowedProtocols : List String := ["http", "https"]
  allowedDomains : List String := []
  maxQueryParams : Nat := 3
  removeSuspiciousParams : Bool := true
  blockPrivateIPs : Bool := true

/-- The `/^[a-zA-Z][a-zA-Z0-9+.-]*:/` absoluteness test of step 2. -/
def schemeColonAux : List Char → Bool
  | [] => false
  | c :: rest =>
    if c = ':' then true
    else if c.isAlpha || c.isDigit || c = '+' || c = '.' || c = '-' then schemeColonAux rest
    else false

def hasAbsoluteScheme (s : String) : Bool :=
  match s.data with
  | [] => false
  | c :: rest => c.isAlpha && schemeColonAux rest

/-- The `/^0x[0-9a-f]+$/i` numeric-host test of step 8. -/
def isHexHost (s : String) : Bool :=
  match s.data with
  | '0' :: x :: rest =>
    (x = 'x' || x = 'X') && ¬ rest.isEmpty && rest.all (fun c => (hexDigitVal c).isSome)
  | _ => false

/-- The `/^[0-9]+$/` numeric-host test of step 8. -/
def isDecHost (s : String) : Bool :=
  ¬ s.data.isEmpty && s.data.all Char.isDigit

/-- The suspicious query keys removed by step 11. -/
def suspiciousKeys : List String := ["redirect", "url", "next"]

/-!
The body of `sanitizeAndValidateUrl` is a linear sequence of short-circuiting
steps; it is embedded as one small function per step (applied in the source's
order by `pipelineE`), so that proofs can unfold one step at a time.
`Except.error` is a thrown exception escaping to the enclosing `try/catch`,
`.ok none` an explicit `return null`, `.ok (some s)` the returned URL.
-/

/-- The `URLSearchParams` view of the (possibly null) query component. -/
def searchPairs (env : JsEnv) : Option String → List (String × String)
  | none => []
  | some q => env.parseQ q

/-- Steps 10-12: limit query parameters (keep the first `maxQueryParams` keys,
deleting every key outside that list), unconditionally delete the suspicious
keys, clear the fragment, and reassemble. The query string is re-serialized
from the surviving pairs exactly when some `searchParams.delete` call was
made (a serialization that comes out empty makes the query null). -/
def pipeSteps10to12 (env : JsEnv) (o : SanitizeUrlOptions) (url3 : URLRec) :
    Except Unit (Option String) :=
  let pairs0 := searchPairs env url3.query
  let params := pairs0.map (·.1)
  let pairs1 :=
    if params.length > o.maxQueryParams then
      pairs0.filter (fun kv => (params.take o.maxQueryParams).contains kv.1)
    else pairs0
  let mut1 : Bool :=
    params.length > o.maxQueryParams &&
      params.any (fun k => ¬ (params.take o.maxQueryParams).contains k)
  let present :=
    if o.removeSuspiciousParams then
      suspiciousKeys.filter (fun k => (pairs1.map (·.1)).contains k)
    else []
  let pairs2 := pairs1.filter (fun kv => ¬ present.contains kv.1)
  let url4 :=
    if mut1 || !present.isEmpty then
      let qs := env.serializeQ pairs2
      { url3 with query := if qs = "" then none else some qs }
    else url3
  let url5 := { url4 with fragment := none }
  .ok (some (serializeURL url5))

/-- Step 9: percent-decode the path (a `URIError` propagates to the outer
catch), normalize it, reject if `..` remains, and write it back through the
WHATWG pathname setter. -/
def pipeStep9 (env : JsEnv) (o : SanitizeUrlOptions) (url2 : URLRec) :
    Except Unit (Option String) :=
  match decodeURIComponentE url2.pathname with
  | .error e => .error e
  | .ok decodedPath =>
    let normalizedPath := posixNormalize decodedPath
    if hasDotDot normalizedPath then .ok none
    else pipeSteps10to12 env o { url2 with pathname := env.setPath normalizedPath }

/-- Steps 7-8: DNS resolution with private-address blocking (the inner
`try/catch` rejects on a lookup error), then the numeric-host check. -/
def pipeSteps7to8 (env : JsEnv) (o : SanitizeUrlOptions) (url2 : URLRec)
    (asciiHost : String) : Except Unit (Option String) :=
  let step7reject : Bool :=
    if o.blockPrivateIPs then
      match env.dnsLookup asciiHost with
      | .error _ => true
      | .ok addrs => addrs.any isPrivateIP
    else false
  if step7reject then .ok none
  else if isHexHost asciiHost || isDecHost asciiHost then .ok none
  else pipeStep9 env o url2

/-- Step 6: punycode normalization (a throw propagates), registrable-domain
check, optional allow-list check, and hostname write-back. -/
def pipeStep6 (env : JsEnv) (o : SanitizeUrlOptions) (url1 : URLRec) :
    Except Unit (Option String) :=
  match env.toASCII url1.hostname with
  | .error e => .error e
  | .ok asciiHost =>
    match env.domainOf asciiHost with
    | none => .ok none
    | some dom =>
      if o.allowedDomains ≠ [] && ¬ o.allowedDomains.contains dom then .ok none
      else pipeSteps7to8 env o { url1 with hostname := asciiHost } asciiHost

/-- Steps 4-5: protocol allow-list check and credential stripping. -/
def pipeSteps4to5 (env : JsEnv) (o : SanitizeUrlOptions) (url0 : URLRec) :
    Except Unit (Option String) :=
  let protocol := toLowerStr (removeFirstOcc ':' (url0.scheme ++ ":"))
  if ¬ o.allowedProtocols.contains protocol then .ok none
  else
    let url1 :=
      if url0.username ≠ "" || url0.password ≠ "" then
        { url0 with username := "", password := "" }
      else url0
    pipeStep6 env o url1

/-- Steps 1-3: scheme stripping, absoluteness check, structural parse (a parse
throw propagates to the outer catch), then steps 4-12. -/
def pipelineE (env : JsEnv) (input : String) (o : SanitizeUrlOptions) :
    Except Unit (Option String) :=
  let sanitized := env.sanitize (jsTrim input)
  if sanitized = "about:blank" then .ok none
  else if ¬ hasAbsoluteScheme sanitized then .ok none
  else
    match env.parse sanitized with
    | .error e => .error e
    | .ok url0 => pipeSteps4to5 env o url0

/-- `sanitizeAndValidateUrl`: the body wrapped in the outer `try/catch`, which
converts every thrown exception into the rejection value `null`. -/
def sanitizeAndValidateUrl (env : JsEnv) (input : String)
    (o : SanitizeUrlOptions := {}) : Option String :=
  match pipelineE env input o with
  | .ok v => v
  | .error _ => none

/-! ## The Cloudflare KV link store (`TINY_URL`), modelled as an association
list with explicit state passing -/

abbrev Store := List (String × String)

def kvGet (st : Store) (k : String) : Option String :=
  (st.find? (fun e => e.1 = k)).map (·.2)

def kvPut (st : Store) (k v : String) : Store :=
  if (st.find? (fun e => e.1 = k)).isSome then
    st.map (fun e => if e.1 = k then (k, v) else e)
  else st ++ [(k, v)]

def kvDelete (st : Store) (k : String) : Store :=
  st.filter (fun e => ¬ e.1 = k)

/-- The anchored `UUID` regex test shared by `actions.ts` and the redirect
route: `^hex{8}-hex{4}-hex{4}-hex{4}-hex{12}$` (the `\b` boundaries between a
hex digit and `-` always hold, so they impose nothing extra). -/
def UUID_test (s : String) : Bool :=
  match splitOnStr s "-" with
  | [a, b, c, d, e] =>
    a.length = 8 && b.length = 4 && c.length = 4 && d.length = 4 && e.length = 12 &&
      (a ++ b ++ c ++ d ++ e).data.all (fun c => (hexDigitVal c).isSome)
  | _ => false

/-- `handleCreate` from `app/actions.ts`: validate the identifier format and
the sanitized URL (JS truthiness), refuse when the identifier already has a
truthy stored value, otherwise store the sanitized URL. Returns the reported
success together with the resulting store. -/
def handleCreate (env : JsEnv) (st : Store) (uuid redirect : String) : Bool × Store :=
  let sanitizedRedirect := sanitizeAndValidateUrl env redirect
  if UUID_test uuid && jsTruthy sanitizedRedirect then
    let oldRedirect := kvGet st uuid
    if ¬ jsTruthy oldRedirect then
      (true, kvPut st uuid (sanitizedRedirect.getD ""))
    else (false, st)
  else (false, st)

/-- The observable part of the HTTP response built by the redirect route. -/
structure Resp where
  status : Nat
  location : Option String := none
  body : String
  cacheControl : Option String := none
  robotsTag : Option String := none
deriving DecidableEq

/-- `handleUUID` from `app/t/[uuid]/route.ts`: look the identifier up only
when it matches the `UUID` regex (the regex `match` re-extracts the same
string the anchored test accepted). -/
def handleUUIDStore (st : Store) (uuidParam : String) : Option String :=
  if UUID_test uuidParam then kvGet st uuidParam else none

/-- The `GET` handler of `app/t/[uuid]/route.ts`: look up the stored URL,
re-validate it with `sanitizeAndValidateUrl`, delete-and-404 when
re-validation rejects, otherwise emit a 302 whose `Location` is the freshly
validated URL with caching-disabled and non-indexable headers. -/
def resolveGET (env : JsEnv) (st : Store) (uuid : String) : Resp × Store :=
  let redirectUrl := handleUUIDStore st uuid
  if jsTruthy redirectUrl then
    let validatedUrl := sanitizeAndValidateUrl env (redirectUrl.getD "")
    if ¬ jsTruthy validatedUrl then
      ({ status := 404, body := "Link no longer available" }, kvDelete st uuid)
    else
      ({ status := 302, location := some (validatedUrl.getD ""),
         body := "Redirecting...",
         cacheControl := some "no-store, no-cache, must-revalidate",
         robotsTag := some "noindex, nofollow" }, st)
  else ({ status := 404, body := "Not Found" }, st)

/-! ## The rate limiter (`lib/rateLimit.ts`) -/

/-- `RateLimitConfig`; the source field `keyPrefix` is called `keyNamespace`
here. -/
structure RateLimitConfig where
  windowMs : Nat
  maxRequests : Nat
  keyNamespace : String

/-- `RateLimitResult`; `remaining` is `Option Int` because JS arithmetic on a
`parseInt` result can be NaN. -/
structure RateLimitResult where
  success : Bool
  remaining : Option Int
  resetTime : Nat
  error : Option String := none
deriving DecidableEq

/-- The KV namespace interface used by `RateLimiter` (`get` / `put` with a
TTL); `Except.error` models a thrown store error, caught by the
`try/catch` of `checkLimit`. -/
structure KVOps (σ : Type) where
  get : σ → String → Except Unit (Option String)
  put : σ → String → String → Nat → Except Unit σ

def windowStartOf (cfg : RateLimitConfig) (now : Nat) : Nat :=
  now / cfg.windowMs * cfg.windowMs

/-- The counter key `` `${keyPrefix}:${identifier}:${windowStart}` ``. -/
def rateKey (cfg : RateLimitConfig) (identifier : String) (ws : Nat) : String :=
  cfg.keyNamespace ++ ":" ++ identifier ++ ":" ++ natToStr ws

/-- The count read back from the store: absent key means 0, a present value is
`parseInt`ed (possibly to NaN). -/
def countOf : Option String → Option Int
  | some str => parseInt10 str
  | none => some 0

/-- `RateLimiter.checkLimit`: read the window counter, deny with
`remaining = 0` when it has reached `maxRequests`, otherwise increment and
write back with a TTL of the seconds left in the window (`Math.ceil`); any
store error is caught and the request is allowed (fail-open). -/
def checkLimit {σ : Type} (ops : KVOps σ) (cfg : RateLimitConfig) (s : σ)
    (now : Nat) (identifier : String) : RateLimitResult × σ :=
  let ws := windowStartOf cfg now
  let key := rateKey cfg identifier ws
  match ops.get s key with
  | .error _ =>
    ({ success := true, remaining := some ((cfg.maxRequests : Int) - 1),
       resetTime := ws + cfg.windowMs,
       error := some "Rate limiting service unavailable" }, s)
  | .ok currentCountStr =>
    let currentCount := countOf currentCountStr
    if jsGeNat currentCount cfg.maxRequests then
      ({ success := false, remaining := some 0, resetTime := ws + cfg.windowMs,
         error := some "Rate limit exceeded" }, s)
    else
      let newCount := jsAdd1 currentCount
      let ttl := (ws + cfg.windowMs - now + 999) / 1000
      match ops.put s key (jsNumToString newCount) ttl with
      | .error _ =>
        ({ success := true, remaining := some ((cfg.maxRequests : Int) - 1),
           resetTime := ws + cfg.windowMs,
           error := some "Rate limiting service unavailable" }, s)
      | .ok s' =>
        ({ success := true, remaining := jsSubFrom cfg.maxRequests newCount,
           resetTime := ws + cfg.windowMs }, s')

/-! ### A faithful in-memory KV store with TTL (per-entry absolute expiry) -/

abbrev KVState := List (String × String × Nat)

def memGet (now : Nat) (st : KVState) (k : String) : Option String :=
  match st.find? (fun e => e.1 = k) with
  | some (_, v, exp) => if now < exp then some v else none
  | none => none

/-- `put` with `expirationTtl`: the value expires `ttl` seconds after the
write; a put replaces any previous value under the key. -/
def memPut (now : Nat) (st : KVState) (k v : String) (ttlSec : Nat) : KVState :=
  st.filter (fun e => ¬ e.1 = k) ++ [(k, v, now + ttlSec * 1000)]

def memOps (now : Nat) : KVOps KVState :=
  { get := fun st k => .ok (memGet now st k)
    put := fun st k v t => .ok (memPut now st k v t) }

/-- `getClientIP`: trusted proxy header first, then the first comma-separated
entry of the forwarded-for header (trimmed), then the real-IP header, else
`"unknown"`. Header lookups yield `Option String`; JS truthiness skips
headers that are present but empty. -/
def getClientIP (cfConnectingIP xForwardedFor xRealIP : Option String) : String :=
  if jsTruthy cfConnectingIP then cfConnectingIP.getD ""
  else if jsTruthy xForwardedFor then
    jsTrim ((splitOnStr (xForwardedFor.getD "") ",").headD "")
  else if jsTruthy xRealIP then xRealIP.getD ""
  else "unknown"

/-! ## Concrete library environments

These record the behaviour of the external JavaScript libraries on the finite
set of strings exercised by the witnesses and counterexamples below: the
braintree sanitizer passes safe `https` URLs through (and maps `""` to
`about:blank`); the WHATWG parser splits the listed URLs into their evident
components (in particular `new URL("https://example.com/a%b")` keeps the stray
`%` in the pathname); `punycode.toASCII` is the identity on ASCII hosts;
`tldts` reports the registrable domain `example.com`; the pathname setter
leaves already-encoded paths unchanged. Only the mocked DNS answers differ
between the environments. -/

def recRoot : URLRec := { scheme := "https", hostname := "example.com", pathname := "/" }

def recA : URLRec := { scheme := "https", hostname := "example.com", pathname := "/a%25b" }

def recB : URLRec := { scheme := "https", hostname := "example.com", pathname := "/a%b" }

def recPath : URLRec := { scheme := "https", hostname := "example.com", pathname := "/path" }

def recInternal : URLRec :=
  { scheme := "https", hostname := "internal.example.com", pathname := "/" }

def recNum : URLRec := { scheme := "http", hostname := "12345", pathname := "/" }

def recLoop : URLRec := { scheme := "http", hostname := "127.0.0.1", pathname := "/" }

/-- Environment whose mocked DNS resolves `example.com` to the public address
93.184.216.34. `http://127.0.0.1/` parses (the WHATWG parser accepts IP
hosts) but has no registrable domain, so `domainOf` is `none` for it; strings
outside the table (such as a URL with a space in the host) make the parser
throw. -/
def envPub : JsEnv :=
  { sanitize := fun s => if s = "" then "about:blank" else s
    parse := fun s =>
      if s = "https://example.com/" then .ok recRoot
      else if s = "https://example.com/a%25b" then .ok recA
      else if s = "https://example.com/a%b" then .ok recB
      else if s = "https://example.com/path" then .ok recPath
      else if s = "http://127.0.0.1/" then .ok recLoop
      else .error ()
    toASCII := fun h => .ok h
    domainOf := fun h => if h = "example.com" then some "example.com" else none
    dnsLookup := fun h => if h = "example.com" then .ok ["93.184.216.34"] else .error ()
    setPath := fun p => p
    parseQ := fun _ => []
    serializeQ := fun _ => "" }

/-- Environment whose mocked DNS resolves the public-looking host
`internal.example.com` to `fe81::1`, a link-local address inside fe80::/10
whose textual form does not begin with the literal `fe80`. -/
def envFe81 : JsEnv :=
  { sanitize := fun s => if s = "" then "about:blank" else s
    parse := fun s => if s = "https://internal.example.com/" then .ok recInternal else .error ()
    toASCII := fun h => .ok h
    domainOf := fun h => if h = "internal.example.com" then some "example.com" else none
    dnsLookup := fun h => if h = "internal.example.com" then .ok ["fe81::1"] else .error ()
    setPath := fun p => p
    parseQ := fun _ => []
    serializeQ := fun _ => "" }

/-- Environment whose mocked DNS resolves `internal.example.com` to the
private address 10.0.0.5. -/
def envPriv : JsEnv :=
  { sanitize := fun s => if s = "" then "about:blank" else s
    parse := fun s => if s = "https://internal.example.com/" then .ok recInternal else .error ()
    toASCII := fun h => .ok h
    domainOf := fun h => if h = "internal.example.com" then some "example.com" else none
    dnsLookup := fun h => if h = "internal.example.com" then .ok ["10.0.0.5"] else .error ()
    setPath := fun p => p
    parseQ := fun _ => []
    serializeQ := fun _ => "" }

/-- Environment for a purely numeric host, with DNS resolving it to a public
address (the hostile case for the numeric-host check). The real WHATWG parser
canonicalizes such hosts to dotted-quad form; this environment keeps the
textual host so that the step-8 check is exercised in isolation, as the
claim's conditional statement requires. -/
def envNum : JsEnv :=
  { sanitize := fun s => if s = "" then "about:blank" else s
    parse := fun s => if s = "http://12345/" then .ok recNum else .error ()
    toASCII := fun h => .ok h
    domainOf := fun h => if h = "12345" then some "12345" else none
    dnsLookup := fun h => if h = "12345" then .ok ["93.184.216.34"] else .error ()
    setPath := fun p => p
    parseQ := fun _ => []
    serializeQ := fun _ => "" }

/-! ## Rejection helper lemmas for the validation pipeline

`rejectsR r` says a pipeline stage outcome is a rejection: either an explicit
`return null` or a thrown exception (which the outer catch converts to null).
-/

def rejectsR (r : Except Unit (Option String)) : Prop :=
  r = .ok none ∨ r = .error ()

theorem saniNone_of_rejects {env : JsEnv} {input : String} {o : SanitizeUrlOptions}
    (h : rejectsR (pipelineE env input o)) :
    sanitizeAndValidateUrl env input o = none := by
  unfold sanitizeAndValidateUrl
  rcases h with h | h <;> rw [h]

theorem pipelineE_rejects_of_parse {env : JsEnv} {input : String}
    {o : SanitizeUrlOptions} {u : URLRec}
    (hparse : env.parse (env.sanitize (jsTrim input)) = .ok u)
    (hk : rejectsR (pipeSteps4to5 env o u)) :
    rejectsR (pipelineE env input o) := by
  unfold pipelineE
  dsimp only
  split
  · exact Or.inl rfl
  split
  · exact Or.inl rfl
  rw [hparse]
  exact hk

theorem pipelineE_rejects_of_parse_err {env : JsEnv} {input : String}
    {o : SanitizeUrlOptions}
    (hparse : env.parse (env.sanitize (jsTrim input)) = .error ()) :
    rejectsR (pipelineE env input o) := by
  unfold pipelineE
  dsimp only
  split
  · exact Or.inl rfl
  split
  · exact Or.inl rfl
  rw [hparse]
  exact Or.inr rfl

theorem steps4to5_rejects {env : JsEnv} {o : SanitizeUrlOptions} {u0 : URLRec}
    (hk : ∀ u1 : URLRec, u1.hostname = u0.hostname → u1.pathname = u0.pathname →
      rejectsR (pipeStep6 env o u1)) :
    rejectsR (pipeSteps4to5 env o u0) := by
  unfold pipeSteps4to5
  dsimp only
  split
  · exact Or.inl rfl
  · apply hk <;> (split <;> rfl)

theorem step6_rejects_of_ascii_err {env : JsEnv} {o : SanitizeUrlOptions} {u1 : URLRec}
    (hA : env.toASCII u1.hostname = .error ()) :
    rejectsR (pipeStep6 env o u1) := by
  unfold pipeStep6
  rw [hA]
  exact Or.inr rfl

theorem step6_rejects_at {env : JsEnv} {o : SanitizeUrlOptions} {u1 : URLRec} {ah : String}
    (hascii : env.toASCII u1.hostname = .ok ah)
    (hk : rejectsR (pipeSteps7to8 env o { u1 with hostname := ah } ah)) :
    rejectsR (pipeStep6 env o u1) := by
  unfold pipeStep6
  rw [hascii]
  dsimp only
  cases hdom : env.domainOf ah with
  | none => exact Or.inl rfl
  | some dom =>
    dsimp only
    split
    · exact Or.inl rfl
    · exact hk

theorem step6_rejects_any {env : JsEnv} {o : SanitizeUrlOptions} {u1 : URLRec}
    (hk : ∀ ah, rejectsR (pipeSteps7to8 env o { u1 with hostname := ah } ah)) :
    rejectsR (pipeStep6 env o u1) := by
  unfold pipeStep6
  cases hA : env.toASCII u1.hostname with
  | error e => cases e; exact Or.inr rfl
  | ok ah =>
    dsimp only
    cases hdom : env.domainOf ah with
    | none => exact Or.inl rfl
    | some dom =>
      dsimp only
      split
      · exact Or.inl rfl
      · exact hk ah

theorem steps7to8_none_of_private {env : JsEnv} {o : SanitizeUrlOptions} {u2 : URLRec}
    {ah : String} {addrs : List String} {a : String}
    (hblock : o.blockPrivateIPs = true)
    (hdns : env.dnsLookup ah = .ok addrs)
    (hmem : a ∈ addrs) (hpriv : isPrivateIP a = true) :
    pipeSteps7to8 env o u2 ah = .ok none := by
  have hany : addrs.any isPrivateIP = true := List.any_eq_true.mpr ⟨a, hmem, hpriv⟩
  unfold pipeSteps7to8
  rw [hblock, hdns]
  dsimp only
  rw [hany]
  rfl

theorem steps7to8_none_of_dns_err {env : JsEnv} {o : SanitizeUrlOptions} {u2 : URLRec}
    {ah : String}
    (hblock : o.blockPrivateIPs = true)
    (hdns : env.dnsLookup ah = .error ()) :
    pipeSteps7to8 env o u2 ah = .ok none := by
  unfold pipeSteps7to8
  rw [hblock, hdns]
  rfl

/-- Steps 7-8 either reject outright or pass an un-numeric host through to
step 9 unchanged. -/
theorem steps7to8_cases (env : JsEnv) (o : SanitizeUrlOptions) (u2 : URLRec) (ah : String) :
    pipeSteps7to8 env o u2 ah = .ok none ∨
    ((isHexHost ah || isDecHost ah) = false ∧
      pipeSteps7to8 env o u2 ah = pipeStep9 env o u2) := by
  unfold pipeSteps7to8
  dsimp only
  cases hB : o.blockPrivateIPs with
  | true =>
    cases hD : env.dnsLookup ah with
    | error e => left; exact if_pos rfl
    | ok addrs =>
      dsimp only
      cases hA : addrs.any isPrivateIP with
      | true => left; exact if_pos rfl
      | false =>
        rw [if_neg (fun hc => Bool.noConfusion hc)]
        cases hN : (isHexHost ah || isDecHost ah) with
        | true => left; exact if_pos rfl
        | false => right; exact ⟨rfl, if_neg (fun hc => Bool.noConfusion hc)⟩
  | false =>
    rw [if_neg (fun hc => Bool.noConfusion hc)]
    cases hN : (isHexHost ah || isDecHost ah) with
    | true => left; exact if_pos rfl
    | false => right; exact ⟨rfl, if_neg (fun hc => Bool.noConfusion hc)⟩

theorem steps7to8_none_of_numeric {env : JsEnv} {o : SanitizeUrlOptions} {u2 : URLRec}
    {ah : String}
    (hnum : (isHexHost ah || isDecHost ah) = true) :
    pipeSteps7to8 env o u2 ah = .ok none := by
  rcases steps7to8_cases env o u2 ah with h | ⟨hf, _⟩
  · exact h
  · rw [hnum] at hf; exact absurd hf (by simp)

theorem steps7to8_rejects_pass {env : JsEnv} {o : SanitizeUrlOptions} {u2 : URLRec}
    {ah : String}
    (hk : rejectsR (pipeStep9 env o u2)) :
    rejectsR (pipeSteps7to8 env o u2 ah) := by
  rcases steps7to8_cases env o u2 ah with h | ⟨_, heq⟩
  · exact Or.inl h
  · rw [rejectsR, heq]; exact hk

theorem step9_rejects_of_decode_err {env : JsEnv} {o : SanitizeUrlOptions} {u2 : URLRec}
    (hdec : decodeURIComponentE u2.pathname = .error ()) :
    rejectsR (pipeStep9 env o u2) := by
  unfold pipeStep9
  rw [hdec]
  exact Or.inr rfl

/-! ## Claim C1 -/

/-- C1 counterexample: the hostname `internal.example.com` resolves (mocked)
to `fe81::1`, an address inside fe80::/10 whose textual form does not begin
with the literal `fe80`; with the default `blockPrivateIPs = true`,
`sanitizeAndValidateUrl` nevertheless accepts the URL instead of returning
the claimed rejection, because `isPrivateIP` only tests the textual prefixes
`fc`/`fd`/`fe80` and the exact string `::1`. -/
theorem c1_counterexample :
    envFe81.dnsLookup "internal.example.com" = .ok ["fe81::1"] ∧
    addrInPrivateRange "fe81::1" = true ∧
    isPrivateIP "fe81::1" = false ∧
    sanitizeAndValidateUrl envFe81 "https://internal.example.com/" {} =
      some "https://internal.example.com/" :=
  ⟨rfl, by decide, by decide, rfl⟩

/-- C1 (amended): with `blockPrivateIPs = true`, whenever DNS resolution of
the ASCII host succeeds and some resolved address is flagged by the
implementation's textual test `isPrivateIP` (exact `::1`, or the literal
prefixes `10.`, `127.`, `192.168.`, `172.16.`-`172.31.`, `169.254.`, `fc`,
`fd`, `fe80`), `sanitizeAndValidateUrl` returns the rejection `none`, even
when the hostname itself looks public. Textual IPv6 forms inside fe80::/10 or
fc00::/7 that do not begin with those literal prefixes are not covered (see
the counterexample). -/
theorem c1_private_prefix_rejected (env : JsEnv) (o : SanitizeUrlOptions)
    (input : String) (u : URLRec) (ah : String) (addrs : List String) (a : String)
    (hblock : o.blockPrivateIPs = true)
    (hparse : env.parse (env.sanitize (jsTrim input)) = .ok u)
    (hascii : env.toASCII u.hostname = .ok ah)
    (hdns : env.dnsLookup ah = .ok addrs)
    (hmem : a ∈ addrs)
    (hpriv : isPrivateIP a = true) :
    sanitizeAndValidateUrl env input o = none :=
  saniNone_of_rejects (pipelineE_rejects_of_parse hparse (steps4to5_rejects
    (fun _ hh _ => step6_rejects_at (by rw [hh]; exact hascii)
      (Or.inl (steps7to8_none_of_private hblock hdns hmem hpriv)))))

/-- C1 witness: `internal.example.com` resolving to the private address
10.0.0.5 is rejected. -/
theorem c1_private_prefix_rejected_witness :
    isPrivateIP "10.0.0.5" = true ∧
    sanitizeAndValidateUrl envPriv "https://internal.example.com/" {} = none :=
  ⟨by decide,
    c1_private_prefix_rejected envPriv {} "https://internal.example.com/"
      recInternal "internal.example.com" ["10.0.0.5"] "10.0.0.5"
      rfl rfl rfl rfl (by decide) (by decide)⟩

/-! ## Claim C2 -/

/-- C2: if the host after ASCII normalization is purely hexadecimal (`0x...`)
or a purely decimal digit string, `sanitizeAndValidateUrl` returns the
rejection `none` regardless of the DNS outcome for that host (the environment
and hence the DNS function is arbitrary, and no hypothesis constrains the
lookup). -/
theorem c2_numeric_host_rejected (env : JsEnv) (o : SanitizeUrlOptions)
    (input : String) (u : URLRec) (ah : String)
    (hparse : env.parse (env.sanitize (jsTrim input)) = .ok u)
    (hascii : env.toASCII u.hostname = .ok ah)
    (hnum : (isHexHost ah || isDecHost ah) = true) :
    sanitizeAndValidateUrl env input o = none :=
  saniNone_of_rejects (pipelineE_rejects_of_parse hparse (steps4to5_rejects
    (fun _ hh _ => step6_rejects_at (by rw [hh]; exact hascii)
      (Or.inl (steps7to8_none_of_numeric hnum)))))

/-- C2 witness: the purely decimal host `12345` is rejected even though its
mocked DNS resolution succeeds with a public address. -/
theorem c2_numeric_host_rejected_witness :
    isDecHost "12345" = true ∧
    envNum.dnsLookup "12345" = .ok ["93.184.216.34"] ∧
    sanitizeAndValidateUrl envNum "http://12345/" {} = none :=
  ⟨by decide, rfl,
    c2_numeric_host_rejected envNum {} "http://12345/" recNum "12345" rfl rfl (by decide)⟩

/-! ## Claim C10 -/

/-- C10: `sanitizeAndValidateUrl` is total: by construction it returns
`Option String`, and every internal failure is caught and surfaced as `none`:
any thrown exception reaching the outer catch (first conjunct), and in
particular a parse failure, a punycode failure, a DNS failure under the
default private-IP blocking, and a malformed percent-encoding in the path
(remaining conjuncts), all yield the rejection `none`. -/
theorem c10_total_never_throws (env : JsEnv) (input : String) (o : SanitizeUrlOptions) :
    (∀ e, pipelineE env input o = .error e → sanitizeAndValidateUrl env input o = none) ∧
    (env.parse (env.sanitize (jsTrim input)) = .error () →
      sanitizeAndValidateUrl env input o = none) ∧
    (∀ u : URLRec, env.parse (env.sanitize (jsTrim input)) = .ok u →
      env.toASCII u.hostname = .error () →
      sanitizeAndValidateUrl env input o = none) ∧
    (∀ (u : URLRec) (ah : String), env.parse (env.sanitize (jsTrim input)) = .ok u →
      env.toASCII u.hostname = .ok ah → o.blockPrivateIPs = true →
      env.dnsLookup ah = .error () →
      sanitizeAndValidateUrl env input o = none) ∧
    (∀ u : URLRec, env.parse (env.sanitize (jsTrim input)) = .ok u →
      decodeURIComponentE u.pathname = .error () →
      sanitizeAndValidateUrl env input o = none) := by
  refine ⟨?_, ?_, ?_, ?_, ?_⟩
  · intro e h
    unfold sanitizeAndValidateUrl
    rw [h]
  · intro hperr
    exact saniNone_of_rejects (pipelineE_rejects_of_parse_err hperr)
  · intro u hparse hA
    exact saniNone_of_rejects (pipelineE_rejects_of_parse hparse (steps4to5_rejects
      (fun _ hh _ => step6_rejects_of_ascii_err (by rw [hh]; exact hA))))
  · intro u ah hparse hascii hblock hdns
    exact saniNone_of_rejects (pipelineE_rejects_of_parse hparse (steps4to5_rejects
      (fun _ hh _ => step6_rejects_at (by rw [hh]; exact hascii)
        (Or.inl (steps7to8_none_of_dns_err hblock hdns)))))
  · intro u hparse hdec
    exact saniNone_of_rejects (pipelineE_rejects_of_parse hparse (steps4to5_rejects
      (fun u1 _ hp => step6_rejects_any (fun ah => steps7to8_rejects_pass
        (step9_rejects_of_decode_err
          (show decodeURIComponentE u1.pathname = .error () by rw [hp]; exact hdec))))))

/-- C10 witness: a URL the mocked WHATWG parser throws on (conjunct 2), and a
URL whose canonical path contains a malformed percent-escape so that
`decodeURIComponent` throws (conjunct 5); both surface as `none`. -/
theorem c10_total_never_throws_witness :
    envPub.parse "https://exa mple.com/" = .error () ∧
    sanitizeAndValidateUrl envPub "https://exa mple.com/" {} = none ∧
    decodeURIComponentE "/a%b" = .error () ∧
    sanitizeAndValidateUrl envPub "https://example.com/a%b" {} = none :=
  ⟨rfl,
    (c10_total_never_throws envPub "https://exa mple.com/" {}).2.1 rfl,
    rfl,
    (c10_total_never_throws envPub "https://example.com/a%b" {}).2.2.2.2 recB rfl rfl⟩

/-! ## Claim C3 -/

/-- The identifier used by the store-level examples. -/
def u0str : String := "123e4567-e89b-12d3-a456-426614174000"

/-- C3 counterexample: when the identifier already maps to the stored value
`""`, `handleCreate` nevertheless reports success and overwrites it, because
the JS guard `if (!oldRedirect)` treats the empty string as absent. -/
theorem c3_counterexample :
    kvGet [(u0str, "")] u0str = some "" ∧
    handleCreate envPub [(u0str, "")] u0str "https://example.com/" =
      (true, [(u0str, "https://example.com/")]) :=
  ⟨rfl, by decide⟩

/-- C3 (amended): for every store state in which the identifier already maps
to a non-empty stored value, `handleCreate` returns `false` and leaves the
store unchanged — the identifier is write-once for non-empty values (an
empty stored value is treated as absent by JS truthiness, see the
counterexample). -/
theorem c3_write_once_nonempty (env : JsEnv) (st : Store) (uuid redirect v : String)
    (hv : kvGet st uuid = some v) (hne : v ≠ "") :
    handleCreate env st uuid redirect = (false, st) := by
  unfold handleCreate
  dsimp only
  split
  · rw [hv]
    have ht : jsTruthy (some v) = true := by simp [jsTruthy, hne]
    rw [ht]
    simp
  · rfl

/-- C3 witness: an identifier already bound to `"x"` rejects a second create
and keeps its value. -/
theorem c3_write_once_nonempty_witness :
    kvGet [(u0str, "x")] u0str = some "x" ∧
    handleCreate envPub [(u0str, "x")] u0str "https://example.com/" =
      (false, [(u0str, "x")]) :=
  ⟨rfl, c3_write_once_nonempty envPub [(u0str, "x")] u0str "https://example.com/" "x"
    rfl (by decide)⟩

/-! ## Claim C4 -/

/-- C4 counterexample: for a valid-format identifier whose stored value `""`
fails re-validation (`sanitizeAndValidateUrl` returns `none` on it), the
resolve handler responds 404 but does NOT delete the stored entry: the JS
guard `if (redirectUrl)` treats the empty stored string as a missing link, so
the delete branch is never reached and the entry survives. -/
theorem c4_counterexample :
    UUID_test u0str = true ∧
    kvGet [(u0str, "")] u0str = some "" ∧
    sanitizeAndValidateUrl envPub "" = none ∧
    resolveGET envPub [(u0str, "")] u0str =
      ({ status := 404, body := "Not Found" }, [(u0str, "")]) :=
  ⟨by decide, rfl, rfl, by decide⟩

/-- C4 (amended): for every identifier of valid format whose stored value is
non-empty, if re-validation by `sanitizeAndValidateUrl` rejects the stored
string then the resolve handler deletes the stored entry and responds 404;
and whenever the handler emits a redirect, its `Location` is exactly the
freshly re-validated URL returned by `sanitizeAndValidateUrl` on the stored
string, never the raw stored string as such. (An empty stored value is
treated as a missing link and is answered 404 without deletion, see the
counterexample.) -/
theorem c4_revalidate_delete_404 (env : JsEnv) (st : Store) (uuid v : String)
    (hu : UUID_test uuid = true) (hv : kvGet st uuid = some v) (hne : v ≠ "") :
    (sanitizeAndValidateUrl env v = none →
      resolveGET env st uuid =
        ({ status := 404, body := "Link no longer available" }, kvDelete st uuid)) ∧
    (∀ L, (resolveGET env st uuid).1.location = some L →
      sanitizeAndValidateUrl env v = some L) := by
  have hlook : handleUUIDStore st uuid = some v := by
    unfold handleUUIDStore
    rw [hu]
    simpa using hv
  have htru : jsTruthy (some v) = true := by simp [jsTruthy, hne]
  constructor
  · intro hval
    unfold resolveGET
    rw [hlook]
    try dsimp only
    rw [htru, if_pos rfl]
    try dsimp only
    rw [Option.getD_some, hval]
    rw [if_pos (show ¬ jsTruthy none = true from fun hc => Bool.noConfusion hc)]
  · intro L hL
    unfold resolveGET at hL
    rw [hlook] at hL
    try dsimp only at hL
    rw [htru, if_pos rfl] at hL
    try dsimp only at hL
    rw [Option.getD_some] at hL
    cases hsv : sanitizeAndValidateUrl env v with
    | none =>
      rw [hsv] at hL
      rw [if_pos (show ¬ jsTruthy none = true from fun hc => Bool.noConfusion hc)] at hL
      simp at hL
    | some s =>
      rw [hsv] at hL
      by_cases hs : s = ""
      · subst hs
        rw [if_pos (show ¬ jsTruthy (some "") = true from fun hc => Bool.noConfusion hc)] at hL
        simp at hL
      · have htrs : jsTruthy (some s) = true := by simp [jsTruthy, hs]
        rw [if_neg (show ¬ ¬ jsTruthy (some s) = true from fun hcon => hcon htrs)] at hL
        simp at hL
        rw [hL]

/-- C4 witness: a stored private-IP URL (which fails re-validation) is deleted
and answered 404. -/
theorem c4_revalidate_delete_404_witness :
    sanitizeAndValidateUrl envPub "http://127.0.0.1/" = none ∧
    resolveGET envPub [(u0str, "http://127.0.0.1/")] u0str =
      ({ status := 404, body := "Link no longer available" }, []) :=
  ⟨rfl,
    (c4_revalidate_delete_404 envPub [(u0str, "http://127.0.0.1/")] u0str
      "http://127.0.0.1/" (by decide) rfl (by decide)).1 rfl⟩

/-! ## Claim C7 -/

/-- C7 counterexample: a forwarded-for header beginning with an empty entry
yields the empty string — the code takes `split(',')[0].trim()` and does not
skip empty entries; and a present-but-empty trusted header is skipped rather
than returned. -/
theorem c7_counterexample :
    getClientIP none (some ", 1.2.3.4") none = "" ∧
    getClientIP (some "") none (some "9.9.9.9") = "9.9.9.9" :=
  ⟨by decide, by decide⟩

/-- C7 (amended): `getClientIP` returns the trusted proxy-injected client-IP
header when present and non-empty; otherwise, when the forwarded-for header
is present and non-empty, the FIRST comma-separated entry trimmed of
whitespace (which may be the empty string — empty entries are not skipped);
otherwise the real-IP header when present and non-empty; otherwise the
sentinel `"unknown"` — never a failure. -/
theorem c7_client_ip_priority (cf xff xri : Option String) :
    (∀ v, cf = some v → v ≠ "" → getClientIP cf xff xri = v) ∧
    (jsTruthy cf = false → ∀ w, xff = some w → w ≠ "" →
      getClientIP cf xff xri = jsTrim ((splitOnStr w ",").headD "")) ∧
    (jsTruthy cf = false → jsTruthy xff = false → ∀ w, xri = some w → w ≠ "" →
      getClientIP cf xff xri = w) ∧
    (jsTruthy cf = false → jsTruthy xff = false → jsTruthy xri = false →
      getClientIP cf xff xri = "unknown") := by
  refine ⟨?_, ?_, ?_, ?_⟩
  · intro v hcf hne
    subst hcf
    have ht : jsTruthy (some v) = true := by simp [jsTruthy, hne]
    unfold getClientIP
    rw [ht, if_pos rfl]
    rfl
  · intro h0 w hx hne
    subst hx
    have ht : jsTruthy (some w) = true := by simp [jsTruthy, hne]
    unfold getClientIP
    rw [h0, if_neg (fun hc => Bool.noConfusion hc)]
    rw [ht, if_pos rfl]
    rfl
  · intro h0 h1 w hx hne
    subst hx
    have ht : jsTruthy (some w) = true := by simp [jsTruthy, hne]
    unfold getClientIP
    rw [h0, if_neg (fun hc => Bool.noConfusion hc)]
    rw [h1, if_neg (fun hc => Bool.noConfusion hc)]
    rw [ht, if_pos rfl]
    rfl
  · intro h0 h1 h2
    unfold getClientIP
    rw [h0, if_neg (fun hc => Bool.noConfusion hc)]
    rw [h1, if_neg (fun hc => Bool.noConfusion hc)]
    rw [h2, if_neg (fun hc => Bool.noConfusion hc)]

/-- C7 witness: the trusted header wins over a populated forwarded-for
header. -/
theorem c7_client_ip_priority_witness :
    getClientIP (some "203.0.113.7") (some "1.2.3.4, 5.6.7.8") none = "203.0.113.7" :=
  (c7_client_ip_priority (some "203.0.113.7") (some "1.2.3.4, 5.6.7.8") none).1
    "203.0.113.7" rfl (by decide)

/-- A store whose calls always throw (backend unavailable). -/
def failOps : KVOps Unit :=
  { get := fun _ _ => .error (), put := fun _ _ _ _ => .error () }

/-- A store that always reads back the count \"5\" and accepts writes. -/
def denyOps : KVOps Unit :=
  { get := fun _ _ => .ok (some "5"), put := fun s _ _ _ => .ok s }

/-! ## Claim C6 -/

/-- C6: the rate limiter fails open: if the store `get` for the window key
raises an error, or the `get` succeeds, the limit is not yet reached and the
subsequent `put` raises an error, then `checkLimit` reports success
(`allowed = true`) and the request proceeds. These are exactly the store
calls `checkLimit` makes. -/
theorem c6_fail_open {σ : Type} (ops : KVOps σ) (cfg : RateLimitConfig) (s : σ)
    (now : Nat) (identifier : String) :
    (ops.get s (rateKey cfg identifier (windowStartOf cfg now)) = .error () →
      (checkLimit ops cfg s now identifier).1.success = true) ∧
    (∀ cnt, ops.get s (rateKey cfg identifier (windowStartOf cfg now)) = .ok cnt →
      jsGeNat (countOf cnt) cfg.maxRequests = false →
      ops.put s (rateKey cfg identifier (windowStartOf cfg now))
        (jsNumToString (jsAdd1 (countOf cnt)))
        ((windowStartOf cfg now + cfg.windowMs - now + 999) / 1000) = .error () →
      (checkLimit ops cfg s now identifier).1.success = true) := by
  constructor
  · intro hg
    unfold checkLimit
    dsimp only
    rw [hg]
  · intro cnt hg hlt hp
    unfold checkLimit
    dsimp only
    rw [hg]
    dsimp only
    rw [hlt]
    rw [if_neg (fun hc => Bool.noConfusion hc)]
    rw [hp]

/-- C6 witness: with a store whose calls always fail, the check still allows
the request. -/
theorem c6_fail_open_witness :
    (checkLimit failOps ⟨60000, 3, "rl"⟩ () 90000 "1.2.3.4").1.success = true :=
  (c6_fail_open failOps ⟨60000, 3, "rl"⟩ () 90000 "1.2.3.4").1 rfl

/-! ## Claim C9 -/

/-- C9: a denied check writes nothing: when the stored count already satisfies
`count >= maxRequests`, `checkLimit` returns the denial result and the store
state it was given, for EVERY possible `put` behaviour (the universally
quantified `ops` includes arbitrary puts, none of which is invoked). -/
theorem c9_denied_no_write {σ : Type} (ops : KVOps σ) (cfg : RateLimitConfig) (s : σ)
    (now : Nat) (identifier : String) (c : String)
    (hg : ops.get s (rateKey cfg identifier (windowStartOf cfg now)) = .ok (some c))
    (hge : jsGeNat (parseInt10 c) cfg.maxRequests = true) :
    checkLimit ops cfg s now identifier =
      ({ success := false, remaining := some 0,
         resetTime := windowStartOf cfg now + cfg.windowMs,
         error := some "Rate limit exceeded" }, s) := by
  unfold checkLimit
  dsimp only
  rw [hg]
  dsimp only [countOf]
  rw [hge]
  rw [if_pos rfl]

/-- C9 witness: a count of 5 against a limit of 3 denies and leaves the store
state untouched. -/
theorem c9_denied_no_write_witness :
    checkLimit denyOps ⟨60000, 3, "rl"⟩ () 90000 "1.2.3.4" =
      ({ success := false, remaining := some 0, resetTime := 120000,
         error := some "Rate limit exceeded" }, ()) :=
  c9_denied_no_write denyOps ⟨60000, 3, "rl"⟩ () 90000 "1.2.3.4" "5" rfl (by decide)

/-! ## Claim C5

Evaluation lemmas for the in-memory TTL store with a single entry, and
injectivity of the counter key in the identity. -/

theorem memGet_single_hit {now exp : Nat} {k v : String} (h : now < exp) :
    memGet now [(k, v, exp)] k = some v := by
  unfold memGet
  rw [List.find?_cons_of_pos _ (by simp)]
  dsimp only
  rw [if_pos h]

theorem memGet_single_miss {now exp : Nat} {k k' v : String} (h : k' ≠ k) :
    memGet now [(k, v, exp)] k' = none := by
  unfold memGet
  rw [List.find?_cons_of_neg _ (by simp; exact fun he => h he.symm), List.find?_nil]

theorem memGet_single_stale {now exp : Nat} {k k' v : String} (h : exp ≤ now) :
    memGet now [(k, v, exp)] k' = none := by
  unfold memGet
  by_cases hk : k = k'
  · rw [List.find?_cons_of_pos _ (by simp [hk])]
    dsimp only
    rw [if_neg (by omega)]
  · rw [List.find?_cons_of_neg _ (by simp [hk]), List.find?_nil]

theorem memPut_replace {now exp t : Nat} {k v w : String} :
    memPut now [(k, v, exp)] k w t = [(k, w, now + t * 1000)] := by
  simp [memPut]

theorem memPut_append {now exp t : Nat} {k k' v w : String} (h : k ≠ k') :
    memPut now [(k, v, exp)] k' w t = [(k, v, exp), (k', w, now + t * 1000)] := by
  simp [memPut, h]

/-- Two distinct identities always get distinct counter keys in the same
window (cancel the shared namespace prefix and window suffix). -/
theorem rateKey_ne {cfg : RateLimitConfig} {id1 id2 : String} {ws : Nat}
    (h : id1 ≠ id2) : rateKey cfg id1 ws ≠ rateKey cfg id2 ws := by
  intro he
  apply h
  have hd := congrArg String.data he
  simp only [rateKey, String.data_append, List.append_assoc] at hd
  have h2 := List.append_cancel_left hd
  have h3 := List.append_cancel_left h2
  have h4 := List.append_cancel_right h3
  cases id1
  cases id2
  exact congrArg String.mk h4

/-- The outcomes claimed for the fixed-window scenario with
`maxRequests = 3`, `windowMs = 60000` against the faithful TTL store: all
calls within the window happen at the single instant `now`, the final call at
`now2`. -/
def C5Scenario (p id1 id2 : String) (now now2 : Nat) : Prop :=
  let cfg : RateLimitConfig := ⟨60000, 3, p⟩
  let ws := windowStartOf cfg now
  let r1 := checkLimit (memOps now) cfg [] now id1
  let r2 := checkLimit (memOps now) cfg r1.2 now id1
  let r3 := checkLimit (memOps now) cfg r2.2 now id1
  let r4 := checkLimit (memOps now) cfg r3.2 now id1
  let r5 := checkLimit (memOps now) cfg r3.2 now id2
  let r6 := checkLimit (memOps now2) cfg r4.2 now2 id1
  r1.1 = { success := true, remaining := some 2, resetTime := ws + 60000 } ∧
  r2.1 = { success := true, remaining := some 1, resetTime := ws + 60000 } ∧
  r3.1 = { success := true, remaining := some 0, resetTime := ws + 60000 } ∧
  r4.1 = { success := false, remaining := some 0, resetTime := ws + 60000,
           error := some "Rate limit exceeded" } ∧
  r5.1 = { success := true, remaining := some 2, resetTime := ws + 60000 } ∧
  r6.1.success = true ∧ r6.1.remaining = some 2

/-- C5: with `maxRequests = 3` and `windowMs = 60000` over the faithful TTL
key-value store, at a fixed wall-clock time `now`: three successive
`checkLimit` calls for the same identity are allowed with remaining 2, 1, 0;
the fourth is denied with remaining 0 and `resetTime = windowStart +
windowMs`; a first call for a different identity in the same window is
allowed with remaining 2; and at any `now2` past the window boundary plus the
written TTL (`windowStart + 61000` covers the `Math.ceil` rounding), the
original identity is allowed again. -/
theorem c5_fixed_window_scenario (p id1 id2 : String) (now now2 : Nat)
    (hid : id1 ≠ id2)
    (hwin : windowStartOf ⟨60000, 3, p⟩ now + 61000 ≤ now2) :
    C5Scenario p id1 id2 now now2 := by
  have hltE : now < now +
      (windowStartOf ⟨60000, 3, p⟩ now + 60000 - now + 999) / 1000 * 1000 := by
    simp only [windowStartOf]
    omega
  have hstale : now +
      (windowStartOf ⟨60000, 3, p⟩ now + 60000 - now + 999) / 1000 * 1000 ≤ now2 := by
    simp only [windowStartOf] at hwin ⊢
    omega
  have c1 : checkLimit (memOps now) ⟨60000, 3, p⟩ [] now id1 =
      ({ success := true, remaining := some 2,
         resetTime := windowStartOf ⟨60000, 3, p⟩ now + 60000 },
       [(rateKey ⟨60000, 3, p⟩ id1 (windowStartOf ⟨60000, 3, p⟩ now), "1",
         now + (windowStartOf ⟨60000, 3, p⟩ now + 60000 - now + 999) / 1000 * 1000)]) := rfl
  have c2 : checkLimit (memOps now) ⟨60000, 3, p⟩
      [(rateKey ⟨60000, 3, p⟩ id1 (windowStartOf ⟨60000, 3, p⟩ now), "1",
        now + (windowStartOf ⟨60000, 3, p⟩ now + 60000 - now + 999) / 1000 * 1000)] now id1 =
      ({ success := true, remaining := some 1,
         resetTime := windowStartOf ⟨60000, 3, p⟩ now + 60000 },
       [(rateKey ⟨60000, 3, p⟩ id1 (windowStartOf ⟨60000, 3, p⟩ now), "2",
         now + (windowStartOf ⟨60000, 3, p⟩ now + 60000 - now + 999) / 1000 * 1000)]) := by
    unfold checkLimit
    dsimp only [memOps]
    rw [memGet_single_hit hltE]
    rw [memPut_replace]
    rfl
  have c3 : checkLimit (memOps now) ⟨60000, 3, p⟩
      [(rateKey ⟨60000, 3, p⟩ id1 (windowStartOf ⟨60000, 3, p⟩ now), "2",
        now + (windowStartOf ⟨60000, 3, p⟩ now + 60000 - now + 999) / 1000 * 1000)] now id1 =
      ({ success := true, remaining := some 0,
         resetTime := windowStartOf ⟨60000, 3, p⟩ now + 60000 },
       [(rateKey ⟨60000, 3, p⟩ id1 (windowStartOf ⟨60000, 3, p⟩ now), "3",
         now + (windowStartOf ⟨60000, 3, p⟩ now + 60000 - now + 999) / 1000 * 1000)]) := by
    unfold checkLimit
    dsimp only [memOps]
    rw [memGet_single_hit hltE]
    rw [memPut_replace]
    rfl
  have c4 : checkLimit (memOps now) ⟨60000, 3, p⟩
      [(rateKey ⟨60000, 3, p⟩ id1 (windowStartOf ⟨60000, 3, p⟩ now), "3",
        now + (windowStartOf ⟨60000, 3, p⟩ now + 60000 - now + 999) / 1000 * 1000)] now id1 =
      ({ success := false, remaining := some 0,
         resetTime := windowStartOf ⟨60000, 3, p⟩ now + 60000,
         error := some "Rate limit exceeded" },
       [(rateKey ⟨60000, 3, p⟩ id1 (windowStartOf ⟨60000, 3, p⟩ now), "3",
         now + (windowStartOf ⟨60000, 3, p⟩ now + 60000 - now + 999) / 1000 * 1000)]) := by
    unfold checkLimit
    dsimp only [memOps]
    rw [memGet_single_hit hltE]
    rfl
  have c5b : checkLimit (memOps now) ⟨60000, 3, p⟩
      [(rateKey ⟨60000, 3, p⟩ id1 (windowStartOf ⟨60000, 3, p⟩ now), "3",
        now + (windowStartOf ⟨60000, 3, p⟩ now + 60000 - now + 999) / 1000 * 1000)] now id2 =
      ({ success := true, remaining := some 2,
         resetTime := windowStartOf ⟨60000, 3, p⟩ now + 60000 },
       [(rateKey ⟨60000, 3, p⟩ id1 (windowStartOf ⟨60000, 3, p⟩ now), "3",
         now + (windowStartOf ⟨60000, 3, p⟩ now + 60000 - now + 999) / 1000 * 1000),
        (rateKey ⟨60000, 3, p⟩ id2 (windowStartOf ⟨60000, 3, p⟩ now), "1",
         now + (windowStartOf ⟨60000, 3, p⟩ now + 60000 - now + 999) / 1000 * 1000)]) := by
    unfold checkLimit
    dsimp only [memOps]
    rw [memGet_single_miss (rateKey_ne (Ne.symm hid))]
    rw [memPut_append (rateKey_ne hid)]
    rfl
  have c6 : (checkLimit (memOps now2) ⟨60000, 3, p⟩
      [(rateKey ⟨60000, 3, p⟩ id1 (windowStartOf ⟨60000, 3, p⟩ now), "3",
        now + (windowStartOf ⟨60000, 3, p⟩ now + 60000 - now + 999) / 1000 * 1000)] now2 id1).1 =
      { success := true, remaining := some 2,
        resetTime := windowStartOf ⟨60000, 3, p⟩ now2 + 60000 } := by
    unfold checkLimit
    dsimp only [memOps]
    rw [memGet_single_stale hstale]
    rfl
  unfold C5Scenario
  dsimp only
  rw [c1]
  dsimp only
  rw [c2]
  dsimp only
  rw [c3]
  dsimp only
  rw [c4, c5b]
  dsimp only
  rw [c6]
  exact ⟨rfl, rfl, rfl, rfl, rfl, rfl, rfl⟩

/-- C5 witness: the scenario realized for the hourly prefix and two concrete
addresses, with all in-window calls at t = 90000 ms and the final call at
t = 125000 ms (past the window boundary 120000 and the written TTL). -/
theorem c5_fixed_window_scenario_witness :
    C5Scenario "rate_limit_ip_hourly" "1.2.3.4" "5.6.7.8" 90000 125000 :=
  c5_fixed_window_scenario "rate_limit_ip_hourly" "1.2.3.4" "5.6.7.8" 90000 125000
    (by decide) (by decide)

/-! ## Claim C8 -/

/-- C8 counterexample: `https://example.com/a%25b` is accepted with canonical
URL `https://example.com/a%b` (step 9 percent-decodes `%25` to `%`), but
re-validating that canonical URL returns `none`: the second run re-applies
`decodeURIComponent`, which throws on the now-stray `%`. Idempotence fails. -/
theorem c8_counterexample :
    sanitizeAndValidateUrl envPub "https://example.com/a%25b" =
      some "https://example.com/a%b" ∧
    sanitizeAndValidateUrl envPub "https://example.com/a%b" = none :=
  ⟨rfl, rfl⟩

/-- C8 (amended): re-validation is idempotent on canonical URLs that are
fixed points of each pipeline stage: if the external library functions are
stable on the canonical URL (the sanitizer passes it through, re-parsing
returns exactly the canonical components, punycode and the pathname setter
are the identity, DNS still resolves to non-private addresses) and the
canonical path percent-decodes to itself (no `%` escapes that decode
further — the condition the counterexample shows is necessary), the
canonical host is non-numeric, the path normalizes to itself without `..`,
the query has at most the default three parameters and no suspicious keys,
and the fragment is absent, then `sanitizeAndValidateUrl` with default
options returns the same string unchanged. -/
theorem c8_idempotent_on_stable_canonical (env : JsEnv) (v : URLRec)
    (d : String) (addrs : List String)
    (hsan : env.sanitize (jsTrim (serializeURL v)) = serializeURL v)
    (hblank : serializeURL v ≠ "about:blank")
    (habs : hasAbsoluteScheme (serializeURL v) = true)
    (hparse : env.parse (serializeURL v) = .ok v)
    (hproto : (["http", "https"] : List String).contains
      (toLowerStr (removeFirstOcc ':' (v.scheme ++ ":"))) = true)
    (hcu : v.username = "") (hcp : v.password = "")
    (hascii : env.toASCII v.hostname = .ok v.hostname)
    (hdom : env.domainOf v.hostname = some d)
    (hdns : env.dnsLookup v.hostname = .ok addrs)
    (hnopriv : addrs.any isPrivateIP = false)
    (hnum : (isHexHost v.hostname || isDecHost v.hostname) = false)
    (hdec : decodeURIComponentE v.pathname = .ok v.pathname)
    (hnorm : posixNormalize v.pathname = v.pathname)
    (hdots : hasDotDot v.pathname = false)
    (hset : env.setPath v.pathname = v.pathname)
    (hqlen : ((searchPairs env v.query).map (·.1)).length ≤ 3)
    (hsus : suspiciousKeys.filter
      (fun k => ((searchPairs env v.query).map (·.1)).contains k) = [])
    (hfrag : v.fragment = none) :
    sanitizeAndValidateUrl env (serializeURL v) {} = some (serializeURL v) := by
  have h1012 : pipeSteps10to12 env {} v = .ok (some (serializeURL v)) := by
    unfold pipeSteps10to12
    try dsimp only
    rw [if_neg (show ¬ ((searchPairs env v.query).map (·.1)).length > 3 by omega)]
    rw [hsus]
    rw [decide_eq_false (show ¬ ((searchPairs env v.query).map (·.1)).length > 3 by omega)]
    try dsimp only
    rw [hfrag]
    simp
    rw [← hfrag]
  have h9 : pipeStep9 env {} v = .ok (some (serializeURL v)) := by
    unfold pipeStep9
    rw [hdec]
    dsimp only
    rw [hnorm, hdots]
    rw [if_neg (show ¬ false = true from fun hc => Bool.noConfusion hc)]
    rw [hset]
    exact h1012
  have h78 : pipeSteps7to8 env {} v v.hostname = .ok (some (serializeURL v)) := by
    unfold pipeSteps7to8
    dsimp only
    rw [hdns]
    dsimp only
    rw [hnopriv]
    rw [if_neg (show ¬ (if true = true then false else false) = true from
      fun hc => Bool.noConfusion hc)]
    rw [hnum]
    rw [if_neg (show ¬ false = true from fun hc => Bool.noConfusion hc)]
    exact h9
  have h6 : pipeStep6 env {} v = .ok (some (serializeURL v)) := by
    unfold pipeStep6
    rw [hascii]
    dsimp only
    rw [hdom]
    dsimp only
    rw [if_neg (by simp)]
    exact h78
  have h45 : pipeSteps4to5 env {} v = .ok (some (serializeURL v)) := by
    unfold pipeSteps4to5
    dsimp only
    rw [hproto]
    rw [if_neg (show ¬ ¬ true = true from fun hc => hc rfl)]
    rw [hcu, hcp]
    rw [if_neg (by simp)]
    exact h6
  have hpipe : pipelineE env (serializeURL v) {} = .ok (some (serializeURL v)) := by
    unfold pipelineE
    dsimp only
    rw [hsan]
    rw [if_neg hblank]
    rw [habs]
    rw [if_neg (show ¬ ¬ true = true from fun hc => hc rfl)]
    rw [hparse]
    exact h45
  unfold sanitizeAndValidateUrl
  rw [hpipe]

/-- C8 witness: `https://example.com/path` (no percent-escapes, no query, no
fragment) re-validates to itself under the public-DNS environment. -/
theorem c8_idempotent_on_stable_canonical_witness :
    sanitizeAndValidateUrl envPub "https://example.com/path" =
      some "https://example.com/path" :=
  c8_idempotent_on_stable_canonical envPub recPath "example.com" ["93.184.216.34"]
    rfl (by decide) (by decide) rfl (by decide) rfl rfl rfl rfl rfl (by decide)
    (by decide) rfl (by decide) (by decide) rfl (by decide) (by decide) rfl

end TinyWorker
